import Mathlib

/-
Formal model of `pdf_parser.py` (karaoke-pdf-parser).

The program is an ETL pipeline:
  * `extract_karaoke_data` reads tables page by page from a PDF (via tabula),
    normalises each table to five named text columns, and accumulates rows
    together with a list of failed pages;
  * `save_to_sqlite` writes the accumulated rows into an SQLite table;
  * `main` sequences the two.

The embedding below is a shallow one: the external PDF reader is modelled by
an input oracle (`PageInput`) saying, for each page, whether `tabula.read_pdf`
raised or which tables it returned; a pandas cell is `Option String` (`none`
models NaN); the SQLite database file is an `Option KTable`; store faults that
SQLite could raise are injected through `StoreFault`.
-/

/-- Model of Python `str.strip()`: remove leading and trailing whitespace
characters (Lean's `Char.isWhitespace` stands in for Python's whitespace
class). -/
def pyStrip (s : String) : String :=
  String.mk (List.rdropWhile Char.isWhitespace
    (List.dropWhile Char.isWhitespace s.data))

/-- Model of `table.fillna('')` followed by `astype(str).str.strip()` applied
to one cell: a missing value (NaN, modelled as `none`) becomes the empty
string; a present value is stripped of surrounding whitespace. -/
def cleanCell : Option String → String
  | none => ""
  | some s => pyStrip s

/-- One normalised row of the output DataFrame: the five text fields assigned
at line 89 of `pdf_parser.py` plus the `Page` tag added at line 97. -/
structure SongRow where
  interprete : String
  cod : String
  titulo : String
  inicio : String
  idioma : String
  page : Nat
deriving DecidableEq, Repr

/-- A raw table as returned by `tabula.read_pdf`: a list of rows, each row a
list of cells (`none` = NaN), together with the column count
(`len(table.columns)`). In pandas every row of a DataFrame has exactly
`ncols` cells; the embedding reads a missing cell as `none` via `List.getD`. -/
structure RawTable where
  rows : List (List (Option String))
  ncols : Nat
deriving DecidableEq, Repr

/-- Model of pandas `DataFrame.empty`: true when either axis has length 0. -/
def tableEmpty (t : RawTable) : Bool :=
  t.rows.isEmpty || t.ncols == 0

/-- Model of `table.iloc[:, :5]` (line 78): keep the first five columns. -/
def truncateTo5 (t : RawTable) : RawTable :=
  { rows := t.rows.map (fun r => r.take 5), ncols := 5 }

/-- String rendering of one cell inside `str(table.iloc[0])`: pandas prints
NaN as `NaN` and an object cell by its contents. -/
def cellRepr : Option String → String
  | none => "NaN"
  | some s => s

/-- Model of `str(table.iloc[0])`: the repr of a pandas Series lists the cell
values separated by whitespace (index labels are bare integers, the trailing
dtype line contains neither header token), so a token such as `"Cod"` occurs
in it exactly when it occurs in some cell's rendering. -/
def rowStr (r : List (Option String)) : String :=
  String.intercalate " " (r.map cellRepr)

/-- Model of Python's substring test `needle in hay`. -/
def strContainsSub (hay needle : String) : Bool :=
  decide (needle.data <:+: hay.data)

/-- Model of line 85: `'Interprete' in str(table.iloc[0]) or 'Cod' in
str(table.iloc[0])`. -/
def hasHeaderToken (r : List (Option String)) : Bool :=
  strContainsSub (rowStr r) "Interprete" || strContainsSub (rowStr r) "Cod"

/-- Build one output row from a raw 5-cell row: assign the five field names
(line 89), clean each cell (lines 92-94) and tag the page (line 97). -/
def mkRow (page : Nat) (r : List (Option String)) : SongRow :=
  { interprete := cleanCell (r.getD 0 none)
    cod := cleanCell (r.getD 1 none)
    titulo := cleanCell (r.getD 2 none)
    inicio := cleanCell (r.getD 3 none)
    idioma := cleanCell (r.getD 4 none)
    page := page }

/-- Model of lines 75-78 restricted to the case that survives them: when the
column count exceeds five, replace the table's rows by their first five
cells (`table = table.iloc[:, :5]`); a five-column table passes unchanged. -/
def fixColumns (t : RawTable) : List (List (Option String)) :=
  if t.ncols > 5 then (truncateTo5 t).rows else t.rows

/-- Model of lines 84-86: drop the first row when it contains a header
token. -/
def dropHeaderRow : List (List (Option String)) → List (List (Option String))
  | [] => []
  | r :: rest => if hasHeaderToken r then rest else r :: rest

/-- Model of the per-table body, lines 69-105 of `pdf_parser.py`:
reject an empty table; reject fewer than five columns; truncate more than
five columns to the first five; drop a detected header row; assign field
names, clean cells, tag the page; finally reject if no rows remain
(`len(table) > 0`). `none` means the table was rejected
(`failed_pages.append`); `some rows` means the table contributed `rows` to
`all_dataframes`. -/
def processTable (page : Nat) (t : RawTable) : Option (List SongRow) :=
  if tableEmpty t then none
  else if t.ncols < 5 then none
  else if ((dropHeaderRow (fixColumns t)).map (mkRow page)).length > 0 then
    some ((dropHeaderRow (fixColumns t)).map (mkRow page))
  else none

/-- What `tabula.read_pdf` did for one page: `Except.error ()` models the
call raising, `Except.ok tables` models the returned list of tables (after
line 64's wrapping of a bare DataFrame into a singleton list). -/
abbrev PageInput := Except Unit (List RawTable)

/-- Model of the inner `for table in tables` loop (lines 67-109): each table
either contributes a DataFrame to `all_dataframes` or appends the page
number to `failed_pages`. -/
def processTables (page : Nat) : List RawTable → List (List SongRow) × List Nat
  | [] => ([], [])
  | t :: ts =>
    let r := processTables page ts
    match processTable page t with
    | some rows => (rows :: r.1, r.2)
    | none => (r.1, page :: r.2)

/-- Model of one iteration of the page loop (lines 46-113): if
`tabula.read_pdf` raised, the page is recorded as failed with no rows
(lines 111-113); otherwise every returned table is processed. -/
def processPage (page : Nat) (input : PageInput) :
    List (List SongRow) × List Nat :=
  match input with
  | Except.error _ => ([], [page])
  | Except.ok tables => processTables page tables

/-- Model of the whole page loop: pages are processed in order and their
DataFrames and failed-page records are accumulated. -/
def processPages : List (Nat × PageInput) → List (List SongRow) × List Nat
  | [] => ([], [])
  | (p, inp) :: rest =>
    let d := processPage p inp
    let r := processPages rest
    (d.1 ++ r.1, d.2 ++ r.2)

/-- Model of lines 30-43: when `end_page` is `None` the code tries a
page-count detection call (whose outcome is `detect`: `ok n` if
`tabula.read_pdf(pages='all')` returned and the document has `n` pages,
`error ()` if it raised) and then sets `end_page = 316` in the `try` branch
(line 39, `# Hardcoded for now`) as well as in the `except` branch
(line 43). When `end_page` is given it is used as is. -/
def resolveEndPage (endPage : Option Nat) (detect : Except Unit Nat) : Nat :=
  match endPage with
  | some e => e
  | none =>
    match detect with
    | Except.ok _ => 316
    | Except.error _ => 316

/-- Model of `extract_karaoke_data` after the page loop (lines 115-130):
raise `Exception("No data was successfully extracted")` when
`all_dataframes` is empty, otherwise return `pd.concat(all_dataframes)`
together with `failed_pages`. -/
def extract_karaoke_data (inputs : List (Nat × PageInput)) :
    Except String (List SongRow × List Nat) :=
  if (processPages inputs).1.isEmpty then
    Except.error "No data was successfully extracted"
  else
    Except.ok ((processPages inputs).1.flatten, (processPages inputs).2)

/-- Whether extraction raised its fatal error on the given inputs. -/
def extractFailed (inputs : List (Nat × PageInput)) : Bool :=
  match extract_karaoke_data inputs with
  | Except.error _ => true
  | Except.ok _ => false

/-- Total number of rows extracted across all pages. -/
def totalRows (inputs : List (Nat × PageInput)) : Nat :=
  ((processPages inputs).1.map List.length).sum

/-- The SQLite table `karaoke_songs` as the store holds it: its schema either
does or does not carry the `UNIQUE(code)` constraint, plus its rows. -/
structure KTable where
  uniqueCode : Bool
  rows : List SongRow
deriving DecidableEq, Repr

/-- The SQLite connection: the database it sees (`none` = table absent) and
whether the connection is still open. -/
structure Conn where
  db : Option KTable
  isOpen : Bool
deriving DecidableEq, Repr

/-- Injected store-level faults: which of the three store operations inside
the loader's `try` block raises, if any. -/
inductive StoreFault
  | noFault
  | createFail
  | insertFail
  | countFail
deriving DecidableEq, Repr

/-- Model of `sqlite3.connect(db_path)` (line 141): open a connection on the
current database file. -/
def sqliteConnect (db : Option KTable) : Conn :=
  { db := db, isOpen := true }

/-- Model of the `CREATE TABLE IF NOT EXISTS karaoke_songs (... UNIQUE(code))`
statement (lines 145-156): if the table is absent, create it empty with the
declared schema, which carries the `UNIQUE(code)` constraint; if it already
exists, leave it untouched. -/
def execCreateTable (fault : StoreFault) (c : Conn) : Except String Conn :=
  if fault = StoreFault.createFail then Except.error "create failed"
  else
    match c.db with
    | none => Except.ok { c with db := some { uniqueCode := true, rows := [] } }
    | some _ => Except.ok c

/-- Model of `df.to_sql('karaoke_songs', conn, if_exists='replace', ...)`
(lines 159-172): pandas drops the existing table and recreates it from the
DataFrame's own schema — the `dtype` mapping declares column types only, so
the recreated table carries no `UNIQUE(code)` constraint — then inserts every
DataFrame row. No uniqueness violation can arise. -/
def toSqlReplace (fault : StoreFault) (rows : List SongRow) (c : Conn) :
    Except String Conn :=
  if fault = StoreFault.insertFail then Except.error "insert failed"
  else Except.ok { c with db := some { uniqueCode := false, rows := rows } }

/-- Model of `SELECT COUNT(*) FROM karaoke_songs` (line 175). -/
def countQuery (fault : StoreFault) (c : Conn) : Except String Nat :=
  if fault = StoreFault.countFail then Except.error "count failed"
  else
    match c.db with
    | none => Except.error "no such table"
    | some t => Except.ok t.rows.length

/-- The `try` block of `save_to_sqlite` (lines 143-176): create the table if
absent, replace its contents with the DataFrame, re-read the row count.
Returns the result together with the connection in the state it had when the
block finished or raised. -/
def saveBody (fault : StoreFault) (rows : List SongRow) (c : Conn) :
    Except String Nat × Conn :=
  match execCreateTable fault c with
  | Except.error e => (Except.error e, c)
  | Except.ok c1 =>
    match toSqlReplace fault rows c1 with
    | Except.error e => (Except.error e, c1)
    | Except.ok c2 =>
      match countQuery fault c2 with
      | Except.error e => (Except.error e, c2)
      | Except.ok n => (Except.ok n, c2)

/-- Model of `save_to_sqlite(df, db_path)` (lines 132-182): connect, run the
`try` block, and close the connection in the `finally` clause on every exit
path; an error from the block propagates after the close. -/
def save_to_sqlite (fault : StoreFault) (rows : List SongRow)
    (db : Option KTable) : Except String Nat × Conn :=
  let c := sqliteConnect db
  let r := saveBody fault rows c
  (r.1, { r.2 with isOpen := false })

/-- Model of `main` (lines 184-199): run the extractor; if it raised, the
loader is never invoked and the database file is untouched; otherwise load
the extracted rows. The second component is the database file after the run. -/
def main_run (inputs : List (Nat × PageInput)) (fault : StoreFault)
    (db : Option KTable) :
    Except String (List SongRow × List Nat × Nat) × Option KTable :=
  match extract_karaoke_data inputs with
  | Except.error e => (Except.error e, db)
  | Except.ok (rows, failed) =>
    let r := save_to_sqlite fault rows db
    match r.1 with
    | Except.error e => (Except.error e, r.2.db)
    | Except.ok n => (Except.ok (rows, failed, n), r.2.db)

/-! ### Helper lemmas -/

theorem length_dropWhile_le_self {α : Type} (p : α → Bool) (l : List α) :
    (List.dropWhile p l).length ≤ l.length := by
  induction l with
  | nil => simp
  | cons a l ih =>
    rw [List.dropWhile_cons]
    split
    · exact le_trans ih (Nat.le_succ _)
    · exact le_refl _

theorem dropWhile_eq_self_of_append {α : Type} {p : α → Bool} {Z t Y : List α}
    (hY : List.dropWhile p Y = Y) (hZt : Z ++ t = Y) :
    List.dropWhile p Z = Z := by
  cases Z with
  | nil => rfl
  | cons c zs =>
    subst hZt
    rw [List.cons_append] at hY
    by_cases hc : p c
    · exfalso
      rw [List.dropWhile_cons, if_pos hc] at hY
      have hle := length_dropWhile_le_self p (zs ++ t)
      rw [hY] at hle
      simp at hle
    · simp [List.dropWhile_cons, hc]

theorem listStrip_idem (l : List Char) :
    List.rdropWhile Char.isWhitespace (List.dropWhile Char.isWhitespace
        (List.rdropWhile Char.isWhitespace (List.dropWhile Char.isWhitespace l))) =
      List.rdropWhile Char.isWhitespace (List.dropWhile Char.isWhitespace l) := by
  have hY : List.dropWhile Char.isWhitespace (List.dropWhile Char.isWhitespace l)
      = List.dropWhile Char.isWhitespace l :=
    List.dropWhile_idempotent Char.isWhitespace l
  obtain ⟨t, ht⟩ := ( List.rdropWhile_prefix Char.isWhitespace
    (List.dropWhile Char.isWhitespace l))
  have h1 := dropWhile_eq_self_of_append hY ht
  rw [h1, List.rdropWhile_idempotent]

theorem pyStrip_idem (s : String) : pyStrip (pyStrip s) = pyStrip s := by
  unfold pyStrip
  exact congrArg String.mk (listStrip_idem s.data)

theorem pyStrip_cleanCell (c : Option String) :
    pyStrip (cleanCell c) = cleanCell c := by
  cases c with
  | none => rfl
  | some s => exact pyStrip_idem s

theorem processTable_some_shape (page : Nat) (t : RawTable)
    (df : List SongRow) (h : processTable page t = some df) :
    df = (dropHeaderRow (fixColumns t)).map (mkRow page) ∧ df ≠ [] := by
  unfold processTable at h
  split at h
  · exact absurd h (by simp)
  · split at h
    · exact absurd h (by simp)
    · split at h
      · rename_i hlen
        have hdf : df = (dropHeaderRow (fixColumns t)).map (mkRow page) :=
          (Option.some.inj h).symm
        subst hdf
        refine ⟨rfl, ?_⟩
        intro hnil
        rw [hnil] at hlen
        simp at hlen
      · exact absurd h (by simp)

theorem mem_processTables (page : Nat) (ts : List RawTable)
    (df : List SongRow) (h : df ∈ (processTables page ts).1) :
    ∃ t, processTable page t = some df := by
  induction ts with
  | nil => simp [processTables] at h
  | cons t ts ih =>
    rw [processTables] at h
    rcases hp : processTable page t with _ | rows
    · rw [hp] at h
      exact ih h
    · rw [hp] at h
      rcases List.mem_cons.mp h with h1 | h2
      · exact ⟨t, by rw [hp, h1]⟩
      · exact ih h2

theorem mem_processPages (inputs : List (Nat × PageInput))
    (df : List SongRow) (h : df ∈ (processPages inputs).1) :
    ∃ page t, processTable page t = some df := by
  induction inputs with
  | nil => simp [processPages] at h
  | cons pi rest ih =>
    rw [processPages] at h
    rcases List.mem_append.mp h with h1 | h2
    · rcases pi with ⟨p, inp⟩
      cases inp with
      | error e => simp [processPage] at h1
      | ok tables =>
        obtain ⟨t, ht⟩ := mem_processTables p tables df h1
        exact ⟨p, t, ht⟩
    · exact ih h2

theorem processPages_isEmpty_iff_totalRows (inputs : List (Nat × PageInput)) :
    (processPages inputs).1.isEmpty = true ↔ totalRows inputs = 0 := by
  unfold totalRows
  constructor
  · intro h
    rw [List.isEmpty_iff] at h
    rw [h]
    simp
  · intro h
    rw [List.isEmpty_iff]
    rcases hL : (processPages inputs).1 with _ | ⟨df, rest⟩
    · rfl
    · exfalso
      have hmem : df ∈ (processPages inputs).1 := by rw [hL]; exact List.mem_cons_self df rest
      obtain ⟨page, t, ht⟩ := mem_processPages inputs df hmem
      have hne := (processTable_some_shape page t df ht).2
      rw [hL] at h
      simp at h
      exact hne h.1

theorem extractFailed_iff (inputs : List (Nat × PageInput)) :
    extractFailed inputs = true ↔ (processPages inputs).1.isEmpty = true := by
  unfold extractFailed extract_karaoke_data
  split
  · rename_i heq
    split at heq
    · simp_all
    · simp_all
  · rename_i heq
    split at heq
    · simp_all
    · simp_all

/-! ### Claim theorems -/

/-- C1: the claim says loading two rows with the same code raises a
uniqueness violation; in the code `df.to_sql(..., if_exists='replace')`
drops the table declared with `UNIQUE(code)` and recreates it without the
constraint, so two rows sharing the code `"100"` are both stored and the
loader returns success — the code contradicts its own declared schema. -/
theorem duplicate_codes_stored_without_violation :
    save_to_sqlite StoreFault.noFault
        [{ interprete := "A", cod := "100", titulo := "B", inicio := "",
           idioma := "pt", page := 1 },
         { interprete := "C", cod := "100", titulo := "D", inicio := "",
           idioma := "en", page := 2 }] none =
      (Except.ok 2,
       { db := some { uniqueCode := false,
                      rows := [{ interprete := "A", cod := "100", titulo := "B",
                                 inicio := "", idioma := "pt", page := 1 },
                               { interprete := "C", cod := "100", titulo := "D",
                                 inicio := "", idioma := "en", page := 2 }] },
         isOpen := false }) := rfl

/-- C2: a table with fewer than five columns makes its page fail and
contribute no rows, while a table with more than five columns is processed
exactly as its truncation to the first five columns. -/
theorem column_count_check (page : Nat) (t : RawTable) :
    (t.ncols < 5 → processPage page (Except.ok [t]) = ([], [page])) ∧
    (t.ncols > 5 → processTable page t = processTable page (truncateTo5 t)) := by
  constructor
  · intro h5
    have hnone : processTable page t = none := by
      unfold processTable
      by_cases he : tableEmpty t
      · rw [if_pos he]
      · rw [if_neg he, if_pos h5]
    simp [processPage, processTables, hnone]
  · intro h5
    obtain ⟨rows, n⟩ := t
    dsimp only at h5
    rcases rows with _ | ⟨r, rest⟩
    · have e1 : tableEmpty ⟨([] : List (List (Option String))), n⟩ = true := by
        simp [tableEmpty]
      have e2 : tableEmpty (truncateTo5 ⟨([] : List (List (Option String))), n⟩)
          = true := by
        simp [tableEmpty, truncateTo5]
      unfold processTable
      rw [e1, e2]
      simp
    · have e1 : tableEmpty ⟨r :: rest, n⟩ = false := by
        simp [tableEmpty]
        omega
      have e2 : tableEmpty (truncateTo5 ⟨r :: rest, n⟩) = false := by
        simp [tableEmpty, truncateTo5]
      have l1 : ¬ (({ rows := r :: rest, ncols := n } : RawTable).ncols < 5) := by
        dsimp only
        omega
      have l2 : ¬ ((truncateTo5 ⟨r :: rest, n⟩).ncols < 5) := by
        simp [truncateTo5]
      have hfixL : fixColumns ⟨r :: rest, n⟩ = (truncateTo5 ⟨r :: rest, n⟩).rows := by
        unfold fixColumns
        rw [if_pos]
        dsimp only
        omega
      have hfixR : fixColumns (truncateTo5 ⟨r :: rest, n⟩)
          = (truncateTo5 ⟨r :: rest, n⟩).rows := by
        unfold fixColumns truncateTo5
        simp
      unfold processTable
      rw [e1, e2, if_neg l1, if_neg l2, hfixL, hfixR]

/-- C3: extraction raises its fatal "no data" error exactly when zero rows
were extracted across all pages (so individual page failures alone never
raise), and when it raises, `main` propagates the error with the database
untouched — the loader is never invoked. -/
theorem fatal_error_iff_zero_rows (inputs : List (Nat × PageInput))
    (fault : StoreFault) (db : Option KTable) :
    (extractFailed inputs = true ↔ totalRows inputs = 0) ∧
    (extractFailed inputs = true →
      main_run inputs fault db =
        (Except.error "No data was successfully extracted", db)) := by
  constructor
  · rw [extractFailed_iff]
    exact processPages_isEmpty_iff_totalRows inputs
  · intro h
    rw [extractFailed_iff] at h
    unfold main_run extract_karaoke_data
    rw [if_pos h]

/-- Witness for C3 at a run whose only page fails. -/
theorem fatal_error_iff_zero_rows_witness :
    main_run [(1, (Except.error () : PageInput))] StoreFault.noFault none =
      (Except.error "No data was successfully extracted", none) :=
  (fatal_error_iff_zero_rows [(1, Except.error ())] StoreFault.noFault none).2 rfl

/-- C4 counterexample: with `end_page` unspecified and page-count detection
succeeding on a 10-page document, the code still processes 316 pages — the
hardcoded constant is not reserved for the detection-failure fallback. -/
theorem hardcoded_page_count_not_only_fallback :
    ¬ (resolveEndPage none (Except.ok 10) = 10) := by decide

/-- C4 (amended): when `end_page` is not specified, the extractor uses the
hardcoded page count 316 whether page-count detection succeeds or fails. -/
theorem end_page_always_316 (detect : Except Unit Nat) :
    resolveEndPage none detect = 316 := by
  cases detect <;> rfl

/-- C5: every row returned by the extractor has all five text fields
whitespace-trimmed (stripping again changes nothing), and a missing cell is
replaced by the empty string. -/
theorem fields_trimmed_and_never_null (inputs : List (Nat × PageInput))
    (rows : List SongRow) (failed : List Nat)
    (hok : extract_karaoke_data inputs = Except.ok (rows, failed)) :
    (∀ row ∈ rows,
      pyStrip row.interprete = row.interprete ∧
      pyStrip row.cod = row.cod ∧
      pyStrip row.titulo = row.titulo ∧
      pyStrip row.inicio = row.inicio ∧
      pyStrip row.idioma = row.idioma) ∧
    cleanCell none = "" := by
  refine ⟨?_, rfl⟩
  intro row hrow
  have hrows : rows = (processPages inputs).1.flatten := by
    unfold extract_karaoke_data at hok
    split at hok
    · exact absurd hok (by simp)
    · exact (Prod.mk.injEq _ _ _ _ ▸ Except.ok.inj hok).1.symm
  rw [hrows] at hrow
  obtain ⟨df, hdf, hrowdf⟩ := List.mem_flatten.mp hrow
  obtain ⟨page, t, ht⟩ := mem_processPages inputs df hdf
  have hshape := (processTable_some_shape page t df ht).1
  rw [hshape] at hrowdf
  obtain ⟨raw, _, hraw⟩ := List.mem_map.mp hrowdf
  rw [← hraw]
  unfold mkRow
  exact ⟨pyStrip_cleanCell _, pyStrip_cleanCell _, pyStrip_cleanCell _,
    pyStrip_cleanCell _, pyStrip_cleanCell _⟩

/-- Witness for C5 at a one-page run producing one row. -/
theorem fields_trimmed_and_never_null_witness :
    (∀ row ∈ ([{ interprete := "A", cod := "1", titulo := "B", inicio := "",
                 idioma := "pt", page := 2 }] : List SongRow),
      pyStrip row.interprete = row.interprete ∧
      pyStrip row.cod = row.cod ∧
      pyStrip row.titulo = row.titulo ∧
      pyStrip row.inicio = row.inicio ∧
      pyStrip row.idioma = row.idioma) ∧
    cleanCell none = "" :=
  fields_trimmed_and_never_null
    [(2, Except.ok [⟨[[some " A ", some "1", some "B", none, some "pt"]], 5⟩])]
    [{ interprete := "A", cod := "1", titulo := "B", inicio := "",
       idioma := "pt", page := 2 }] [] rfl

/-- C6: loading the same row set twice leaves the store exactly as one load
does — `if_exists='replace'` replaces the table contents rather than
appending, so the reported count is also the same. -/
theorem load_twice_same_as_once (rows : List SongRow) (db : Option KTable) :
    (save_to_sqlite StoreFault.noFault rows
        ((save_to_sqlite StoreFault.noFault rows db).2.db)).2.db =
      (save_to_sqlite StoreFault.noFault rows db).2.db ∧
    (save_to_sqlite StoreFault.noFault rows
        ((save_to_sqlite StoreFault.noFault rows db).2.db)).1 =
      (save_to_sqlite StoreFault.noFault rows db).1 := by
  cases db <;> exact ⟨rfl, rfl⟩

/-- C7: a page whose read raised, or whose single table is empty, is
recorded in `failed_pages`, contributes no rows, and the remaining pages
are processed exactly as they would be without it. -/
theorem page_failure_isolated (page : Nat) (inp : PageInput)
    (rest : List (Nat × PageInput))
    (h : inp = Except.error () ∨ ∃ t, inp = Except.ok [t] ∧ tableEmpty t = true) :
    processPages ((page, inp) :: rest) =
      ((processPages rest).1, page :: (processPages rest).2) := by
  rcases h with h | ⟨t, hinp, hempty⟩
  · subst h
    simp [processPages, processPage]
  · subst hinp
    have hnone : processTable page t = none := by
      unfold processTable
      rw [if_pos hempty]
    simp [processPages, processPage, processTables, hnone]

/-- Witness for C7: a failing page followed by a good page. -/
theorem page_failure_isolated_witness :
    processPages [(7, (Except.error () : PageInput)),
        (8, Except.ok [⟨[[some "A", some "1", some "B", none, some "pt"]], 5⟩])] =
      ((processPages
          [(8, Except.ok [⟨[[some "A", some "1", some "B", none, some "pt"]], 5⟩])]).1,
        7 :: (processPages
          [(8, Except.ok [⟨[[some "A", some "1", some "B", none, some "pt"]], 5⟩])]).2) :=
  page_failure_isolated 7 (Except.error ())
    [(8, Except.ok [⟨[[some "A", some "1", some "B", none, some "pt"]], 5⟩])]
    (Or.inl rfl)

/-- C8: for any table that survives the emptiness and column checks (so its
effective rows are those of `fixColumns`), if the first row contains a header
token ("Interprete" or "Cod") it is dropped, and only the remaining rows get
the five field names assigned. -/
theorem header_row_dropped (page : Nat) (t : RawTable)
    (r : List (Option String)) (rest : List (List (Option String)))
    (hfix : fixColumns t = r :: rest) (h5 : 5 ≤ t.ncols)
    (hh : hasHeaderToken r = true) :
    processTable page t =
      (if (rest.map (mkRow page)).length > 0 then some (rest.map (mkRow page))
       else none) := by
  have hrows : t.rows ≠ [] := by
    unfold fixColumns at hfix
    split at hfix
    · unfold truncateTo5 at hfix
      intro hnil
      rw [hnil] at hfix
      simp at hfix
    · intro hnil
      rw [hnil] at hfix
      exact List.noConfusion hfix
  have hE : tableEmpty t = false := by
    unfold tableEmpty
    have h1 : t.rows.isEmpty = false := by
      rw [List.isEmpty_eq_false]
      exact hrows
    have h2 : (t.ncols == 0) = false := by
      simp only [beq_eq_false_iff_ne]
      omega
    rw [h1, h2]
    rfl
  unfold processTable
  rw [hE]
  simp only [Bool.false_eq_true, if_false]
  rw [if_neg (by omega), hfix]
  simp [dropHeaderRow, hh]

/-- Witness for C8: a five-column table whose first row is the header row. -/
theorem header_row_dropped_witness :
    processTable 5 ⟨[[some "Interprete", some "Cod", some "Titulo",
          some "Inicio", some "Idioma"],
        [some "A", some "1", some "B", none, some "pt"]], 5⟩ =
      (if (([[some "A", some "1", some "B", none, some "pt"]].map (mkRow 5))).length > 0
       then some ([[some "A", some "1", some "B", none, some "pt"]].map (mkRow 5))
       else none) :=
  header_row_dropped 5
    ⟨[[some "Interprete", some "Cod", some "Titulo", some "Inicio", some "Idioma"],
      [some "A", some "1", some "B", none, some "pt"]], 5⟩
    [some "Interprete", some "Cod", some "Titulo", some "Inicio", some "Idioma"]
    [[some "A", some "1", some "B", none, some "pt"]] rfl (by decide) (by decide)

/-- C9: the loader opens the connection and, whatever store fault occurs
(none, create, insert or count failing), the `finally` clause has closed it
by the time `save_to_sqlite` returns or propagates the error. -/
theorem connection_always_closed (fault : StoreFault) (rows : List SongRow)
    (db : Option KTable) :
    (save_to_sqlite fault rows db).2.isOpen = false ∧
    (sqliteConnect db).isOpen = true :=
  ⟨rfl, rfl⟩

/-- C10: whenever `save_to_sqlite` returns success on a DataFrame of `n`
rows — duplicated codes included — the destination table holds exactly those
`n` rows under the constraint-free schema pandas recreated. -/
theorem replace_stores_all_rows (fault : StoreFault) (rows : List SongRow)
    (db : Option KTable) (n : Nat)
    (h : (save_to_sqlite fault rows db).1 = Except.ok n) :
    n = rows.length ∧
    (save_to_sqlite fault rows db).2.db =
      some { uniqueCode := false, rows := rows } := by
  cases fault <;> cases db <;>
    simp [save_to_sqlite, saveBody, execCreateTable, toSqlReplace, countQuery,
      sqliteConnect] at h ⊢ <;> omega

/-- Witness for C2: a two-column table fails its page; a six-column table is
processed as its five-column truncation. -/
theorem column_count_check_witness :
    processPage 4 (Except.ok [(⟨[[some "A", some "1"]], 2⟩ : RawTable)])
        = ([], [4]) ∧
    processTable 4 ⟨[[some "A", some "1", some "B", none, some "pt", some "x"]], 6⟩
      = processTable 4 (truncateTo5
          ⟨[[some "A", some "1", some "B", none, some "pt", some "x"]], 6⟩) :=
  ⟨(column_count_check 4 ⟨[[some "A", some "1"]], 2⟩).1 (by decide),
   (column_count_check 4
      ⟨[[some "A", some "1", some "B", none, some "pt", some "x"]], 6⟩).2
      (by decide)⟩

/-- Witness for C10: a successful load of two rows sharing the code "777"
stores both rows and reports count 2. -/
theorem replace_stores_all_rows_witness :
    (2 : Nat) = ([{ interprete := "A", cod := "777", titulo := "B",
                    inicio := "", idioma := "pt", page := 1 },
                  { interprete := "C", cod := "777", titulo := "D",
                    inicio := "", idioma := "en", page := 2 }] :
                  List SongRow).length ∧
    (save_to_sqlite StoreFault.noFault
        [{ interprete := "A", cod := "777", titulo := "B",
           inicio := "", idioma := "pt", page := 1 },
         { interprete := "C", cod := "777", titulo := "D",
           inicio := "", idioma := "en", page := 2 }] none).2.db =
      some { uniqueCode := false,
             rows := [{ interprete := "A", cod := "777", titulo := "B",
                        inicio := "", idioma := "pt", page := 1 },
                      { interprete := "C", cod := "777", titulo := "D",
                        inicio := "", idioma := "en", page := 2 }] } :=
  replace_stores_all_rows StoreFault.noFault
    [{ interprete := "A", cod := "777", titulo := "B",
       inicio := "", idioma := "pt", page := 1 },
     { interprete := "C", cod := "777", titulo := "D",
       inicio := "", idioma := "en", page := 2 }] none 2 rfl
